import Mathlib

/-!
# Verification of the pvcusage repository

Shallow embedding of the core of the `pvcusage` tool (Go) and proofs about
its claimed properties.  The embedding follows the source files:

* `internal/pvc/usage.go` (mirrored by `pkg/k8s/usage.go`): `GetUsages`,
  `ParseFilter`, `FilterUsages`, `LimitTopN`;
* `internal/perf/monitor.go`: `StartMonitoring`, `waitForPodReady`,
  `parseHumanSize`, `Stop`;
* `pkg/k8s/client.go`: `FindPodUsingPVC`, the pre-existing-pod deletion
  wait inside `CreatePerformancePod`.

Machine `float64` values are modelled by `ℚ` (exact rationals); on every
concrete input evaluated below the Go floating-point computation is exact,
so the two agree there.  `int64` is modelled by `ℤ` (no computation here
approaches the 64-bit range).  Strings are Lean `String`s; the Go code
indexes bytes, the model indexes characters, which coincide on the ASCII
data these functions handle.  Rational values are constructed with
`mkRat` / `Rat.divInt` (with bridging lemmas to the arithmetic form of the
source expressions) so that every definition evaluates by kernel
reduction.
-/

/-- Truncation of a rational toward zero, the behaviour of Go's
`int64(x)` conversion from `float64`. -/
def truncQ (q : ℚ) : ℤ :=
  if 0 ≤ q.num then q.num / q.den else -((-q.num) / q.den)

example : truncQ (mkRat 3 2) = 1 := by decide
example : truncQ (mkRat (-3) 2) = -1 := by decide

/-! ## Model of `strconv.ParseFloat` (decimal forms)

`goParseFloat` models Go's `strconv.ParseFloat(s, 64)` on ordinary decimal
literals: an optional sign, integer digits, an optional fraction, an
optional `e`/`E` exponent, with at least one mantissa digit required and
nothing left over.  Special forms (infinities, NaN, hexadecimal floats,
underscore-separated digits) are not modelled; none of the verified
properties involve them.  The result is the exact rational value of the
literal, standing in for the (correctly rounded) `float64`. -/

/-- Value of a digit string, most significant first (`"123"` ↦ `123`). -/
def digitsToNat (ds : List Char) : ℕ :=
  ds.foldl (fun a c => 10 * a + (c.toNat - 48)) 0

/-- Exact-rational model of `strconv.ParseFloat` on decimal literals. -/
def goParseFloat (s : List Char) : Option ℚ :=
  let signAndRest : Bool × List Char :=
    match s with
    | '+' :: r => (false, r)
    | '-' :: r => (true, r)
    | r => (false, r)
  let neg := signAndRest.1
  let s1 := signAndRest.2
  let ipRest := s1.span Char.isDigit
  let ip := ipRest.1
  let s2 := ipRest.2
  let fracRest : List Char × List Char :=
    match s2 with
    | '.' :: r => r.span Char.isDigit
    | r => ([], r)
  let fp := fracRest.1
  let s3 :=
    match s2 with
    | '.' :: _ => fracRest.2
    | _ => s2
  if ip = [] ∧ fp = [] then none
  else
    let m : ℕ := digitsToNat ip * 10 ^ fp.length + digitsToNat fp
    let mz : ℤ := if neg then -(m : ℤ) else (m : ℤ)
    match s3 with
    | [] => some (mkRat mz (10 ^ fp.length))
    | e :: r =>
      if e = 'e' ∨ e = 'E' then
        let expSignAndRest : Bool × List Char :=
          match r with
          | '+' :: rr => (false, rr)
          | '-' :: rr => (true, rr)
          | rr => (false, rr)
        let eneg := expSignAndRest.1
        let edRest := expSignAndRest.2.span Char.isDigit
        if edRest.1 = [] ∨ edRest.2 ≠ [] then none
        else
          let ev := digitsToNat edRest.1
          some (if eneg then mkRat mz (10 ^ (fp.length + ev))
                else mkRat (mz * (10 : ℤ) ^ ev) (10 ^ fp.length))
      else none

example : goParseFloat "50".data = some 50 := by decide
example : goParseFloat "1.5".data = some (mkRat 3 2) := by decide
example : goParseFloat "".data = none := by decide
example : goParseFloat "invalid".data = none := by decide
example : goParseFloat ".5".data = some (mkRat 1 2) := by decide
example : goParseFloat "2e1".data = some 20 := by decide
example : goParseFloat "2e-1".data = some (mkRat 1 5) := by decide
example : goParseFloat "-3".data = some (-3) := by decide
example : goParseFloat "1.".data = some 1 := by decide
example : goParseFloat ".".data = none := by decide
example : goParseFloat "1e".data = none := by decide
example : goParseFloat "1k".data = none := by decide

/-- Decidable equality for `Except`, used to evaluate the embedded
fallible operations on concrete inputs. -/
instance {ε α : Type} [DecidableEq ε] [DecidableEq α] :
    DecidableEq (Except ε α) := fun
  | .ok a, .ok b =>
    if h : a = b then .isTrue (by rw [h]) else .isFalse (by simp [h])
  | .error e, .error f =>
    if h : e = f then .isTrue (by rw [h]) else .isFalse (by simp [h])
  | .ok _, .error _ => .isFalse (by simp)
  | .error _, .ok _ => .isFalse (by simp)

/-! ## `ParseFilter` / `FilterUsages` / `LimitTopN` (internal/pvc/usage.go) -/

/-- `Usage` record from `internal/pvc/types.go`. -/
structure Usage where
  Namespace : String
  PVC : String
  CapacityBytes : ℤ
  UsedBytes : ℤ
  AvailableBytes : ℤ
  PercentageUsed : ℚ
deriving DecidableEq, Repr

/-- Character-list core of `ParseFilter` from `internal/pvc/usage.go`:
a leading `>`, `<` or `=` (optionally followed by `=`) then a float; no
leading operator defaults to `>`; the empty string yields `("", 0)`. -/
def parseFilterChars : List Char → Except String (String × ℚ)
  | [] => .ok ("", 0)
  | c :: rest =>
    if c = '>' ∨ c = '<' ∨ c = '=' then
      match rest with
      | '=' :: rest2 =>
        match goParseFloat rest2 with
        | some v => .ok (String.mk [c, '='], v)
        | none => .error "invalid filter value"
      | _ =>
        match goParseFloat rest with
        | some v => .ok (String.mk [c], v)
        | none => .error "invalid filter value"
    else
      match goParseFloat (c :: rest) with
      | some v => .ok (">", v)
      | none => .error "invalid filter value"

/-- `ParseFilter` from `internal/pvc/usage.go`. -/
def ParseFilter (s : String) : Except String (String × ℚ) :=
  parseFilterChars s.data

/-- The per-record include decision of the loop body of `FilterUsages`:
records pass unconditionally when the operator is empty, by the matching
comparison for the five known operators, and never for any other operator
string (the Go `switch` has no default, leaving `include` false). -/
def includeUsage (operator : String) (value : ℚ) (u : Usage) : Bool :=
  if operator = "" then true
  else if operator = ">" then decide (u.PercentageUsed > value)
  else if operator = ">=" then decide (u.PercentageUsed ≥ value)
  else if operator = "<" then decide (u.PercentageUsed < value)
  else if operator = "<=" then decide (u.PercentageUsed ≤ value)
  else if operator = "=" then decide (u.PercentageUsed = value)
  else false

/-- `FilterUsages` from `internal/pvc/usage.go`: parse the filter, then
keep, in input order, exactly the records the loop body includes. -/
def FilterUsages (usages : List Usage) (filter : String) :
    Except String (List Usage) :=
  match ParseFilter filter with
  | .error e => .error e
  | .ok (operator, value) => .ok (usages.filter (includeUsage operator value))

example : ParseFilter ">50" = .ok (">", 50) := by decide
example : ParseFilter "<=80" = .ok ("<=", 80) := by decide
example : ParseFilter "=90" = .ok ("=", 90) := by decide
example : ParseFilter "50" = .ok (">", 50) := by decide
example : ParseFilter "" = .ok ("", 0) := by decide
example : ParseFilter "invalid" = .error "invalid filter value" := by decide
example : ParseFilter "==5" = .ok ("==", 5) := by decide

/-- `LimitTopN` from `internal/pvc/usage.go`. -/
def LimitTopN (usages : List Usage) (n : ℤ) : List Usage :=
  if 0 < n ∧ n < (usages.length : ℤ) then usages.take n.toNat else usages

/-! ## `GetUsages` (internal/pvc/usage.go) — aggregation and sorting

The record-emission part of `GetUsages` is deterministic and is embedded
as the function `emitUsages`.  The final `sort.Slice` call is a Go
standard-library sort whose documented contract guarantees that the
result is a permutation of the input ordered by the supplied `less`
function, and explicitly does *not* guarantee stability (`sort.SliceStable`
is the stable variant; `GetUsages` does not use it).  The sort is
therefore embedded as the relation `sortSliceRel` between the emitted
records and the possible outputs. -/

/-- `Volume` from the stats summary (`internal/pvc/types.go`); `pvcRef`
carries the claim's (namespace, name) when present. -/
structure Volume where
  pvcRef : Option (String × String)
  capacityBytes : ℤ
  usedBytes : ℤ
  availableBytes : ℤ
deriving DecidableEq, Repr

/-- `Pod` from the stats summary (`internal/pvc/types.go`). -/
structure SummaryPod where
  volumes : List Volume
deriving DecidableEq, Repr

/-- `Summary` from the stats summary (`internal/pvc/types.go`). -/
structure Summary where
  pods : List SummaryPod
deriving DecidableEq, Repr

/-- The percentage computation
`float64(vol.UsedBytes) / float64(vol.CapacityBytes) * 100` of
`GetUsages`, as the exact rational `used * 100 / cap` (constructed with
`Rat.divInt` so it evaluates; `percentageUsed_eq` below rewrites it into
the literal arithmetic form of the source expression). -/
def percentageUsed (used cap : ℤ) : ℚ :=
  Rat.divInt (used * 100) cap

/-- The body of the volume loop of `GetUsages`: volumes without a claim
reference are skipped, volumes with zero capacity are skipped, every
other volume yields one `Usage` record. -/
def vol2usage (v : Volume) : Option Usage :=
  match v.pvcRef with
  | none => none
  | some nsName =>
    if v.capacityBytes = 0 then none
    else
      some ⟨nsName.1, nsName.2, v.capacityBytes, v.usedBytes, v.availableBytes,
            percentageUsed v.usedBytes v.capacityBytes⟩

/-- The nested node/pod/volume loops of `GetUsages`, emitting usage
records in encounter order. -/
def emitUsages (summaries : List Summary) : List Usage :=
  summaries.flatMap fun s => s.pods.flatMap fun p => p.volumes.filterMap vol2usage

/-- The `less` function passed to `sort.Slice` by `GetUsages`:
`usages[i].PercentageUsed > usages[j].PercentageUsed`. -/
def usageLess (a b : Usage) : Prop :=
  a.PercentageUsed > b.PercentageUsed

instance : DecidableRel usageLess := fun a b =>
  inferInstanceAs (Decidable (a.PercentageUsed > b.PercentageUsed))

instance : DecidableRel fun a b : Usage => ¬ usageLess b a := fun _ _ =>
  instDecidableNot

/-- Contract of Go's `sort.Slice(x, less)`: the result is a permutation
of the input that is sorted with respect to `less`.  Go documents
`sort.Slice` as **not stable** ("The sort is not guaranteed to be
stable: equal elements may be reversed from their original order"), so
any such permutation is a possible output. -/
def sortSliceRel {α : Type} (less : α → α → Prop) (input output : List α) : Prop :=
  input.Perm output ∧ output.Pairwise fun a b => ¬ less b a

/-- Relational embedding of `GetUsages` (for a node set whose summaries
were fetched successfully): the output is a possible result of
`sort.Slice` applied to the emitted records. -/
def GetUsagesRel (summaries : List Summary) (out : List Usage) : Prop :=
  sortSliceRel usageLess (emitUsages summaries) out

instance (summaries : List Summary) (out : List Usage) :
    Decidable (GetUsagesRel summaries out) :=
  inferInstanceAs
    (Decidable ((emitUsages summaries).Perm out ∧ out.Pairwise fun a b => ¬ usageLess b a))

/-- Stability property claimed by the spec: records with any given
percentage appear in the output in the same order in which they were
emitted. -/
def tiesKeepEncounterOrder (emitted out : List Usage) : Prop :=
  ∀ c : ℚ, out.filter (fun u => decide (u.PercentageUsed = c)) =
    emitted.filter (fun u => decide (u.PercentageUsed = c))

/-! ## `FindPodUsingPVC` (pkg/k8s/client.go) -/

/-- Substring test, modelling Go's `strings.Contains(hay, needle)`. -/
def strContains : List Char → List Char → Bool
  | hay, needle =>
    needle.isPrefixOf hay ||
      match hay with
      | [] => false
      | _ :: t => strContains t needle

/-- Go's `strings.Split(s, "-")`: dash-separated segments, with empty
segments for consecutive dashes; always at least one segment. -/
def splitDash : List Char → List (List Char)
  | [] => [[]]
  | c :: rest =>
    let r := splitDash rest
    if c = '-' then [] :: r
    else
      match r with
      | [] => [[c]]
      | seg :: segs => (c :: seg) :: segs

/-- A pod as seen by `FindPodUsingPVC`: its name, its status phase and
the claim names of its PVC-backed volumes in declaration order. -/
structure PodInfo where
  name : String
  phase : String
  claims : List String
deriving DecidableEq, Repr

/-- First tier of `FindPodUsingPVC`: the first pod whose volume list
declares the claim by name. -/
def directTier (pods : List PodInfo) (pvcName : String) : Option String :=
  (pods.find? fun p => p.claims.contains pvcName).map (·.name)

/-- The candidate pod-name patterns `FindPodUsingPVC` derives for a
`data-…` claim name with at least four dash-separated segments
(`ordinal := parts[1]`, `cluster := parts[2]`). -/
def dataPatterns (pvcName : String) : List (List Char) :=
  if "data-".data.isPrefixOf pvcName.data then
    match splitDash pvcName.data with
    | _ :: ordinal :: cluster :: p3 :: _ =>
      [cluster ++ '-' :: ordinal,
       cluster ++ '-' :: ordinal,
       cluster ++ '-' :: (p3 ++ '-' :: ordinal),
       cluster ++ "-kafka-".data ++ ordinal,
       cluster ++ "-zookeeper-".data ++ ordinal]
    | _ => []
  else []

/-- Second tier: the first pattern (in pattern order) that is a prefix of
some pod's name; within a pattern, the first such pod. -/
def patternTier (pods : List PodInfo) (pvcName : String) : Option String :=
  (dataPatterns pvcName).findSome? fun pat =>
    (pods.find? fun p => pat.isPrefixOf p.name.data).map (·.name)

/-- Third tier: the first pod sharing a dash-separated token longer than
3 characters with the claim name. -/
def tokenTier (pods : List PodInfo) (pvcName : String) : Option String :=
  (pods.find? fun p =>
    (splitDash pvcName.data).any fun pvcPart =>
      decide (3 < pvcPart.length) &&
        (splitDash p.name.data).any fun podPart =>
          pvcPart == podPart && decide (3 < podPart.length)).map (·.name)

/-- Fourth tier, first half: the first running pod whose lowercased name
contains `kafka`. -/
def kafkaTier (pods : List PodInfo) : Option String :=
  (pods.find? fun p =>
    strContains (p.name.data.map Char.toLower) "kafka".data &&
      p.phase == "Running").map (·.name)

/-- Fourth tier, second half: the first running pod. -/
def runningTier (pods : List PodInfo) : Option String :=
  (pods.find? fun p => p.phase == "Running").map (·.name)

/-- `FindPodUsingPVC` from `pkg/k8s/client.go`, given the listed pods of
the namespace: error when the namespace has no pods, otherwise the
four-tier search ending in the unconditional first-pod fallback. -/
def FindPodUsingPVC (nspace : String) (pods : List PodInfo) (pvcName : String) :
    Except String String :=
  match pods with
  | [] => .error ("no pods found in namespace '" ++ nspace ++ "'")
  | p0 :: _ =>
    match directTier pods pvcName with
    | some n => .ok n
    | none =>
      match patternTier pods pvcName with
      | some n => .ok n
      | none =>
        match tokenTier pods pvcName with
        | some n => .ok n
        | none =>
          match kafkaTier pods with
          | some n => .ok n
          | none =>
            match runningTier pods with
            | some n => .ok n
            | none => .ok p0.name

/-- `FindPodUsingPVC` including the initial pod-list call: a listing
failure is wrapped and surfaced. -/
def findPodAfterList (nspace : String) (listed : Except String (List PodInfo))
    (pvcName : String) : Except String String :=
  match listed with
  | .error e => .error ("error listing pods: " ++ e)
  | .ok pods => FindPodUsingPVC nspace pods pvcName

/-! ## `StartMonitoring` / `Stop` (internal/perf/monitor.go)

The cluster is abstracted by two oracles: `create n` is the outcome of
the `CreatePerformancePod` call on attempt `n`, and `ready name` is the
outcome of `waitForPodReady` for pod `name`.  The `time.Sleep` backoff
between retries and the `go m.collectMetrics()` launch are real-time and
concurrency effects outside the embedding; the control flow, the error
propagation and the constructed `Monitor` value are embedded exactly. -/

/-- Outcome of one `CreatePerformancePod` call.  On failure Go returns
the empty pod name together with the error. -/
inductive CreateOutcome where
  | ok (name : String)
  | err (msg : String)
deriving DecidableEq, Repr

/-- The retry condition of `StartMonitoring`:
`strings.Contains(err.Error(), "enough resource")`. -/
def resourceErr (msg : String) : Bool :=
  strContains msg.data "enough resource".data

/-- The `for attempt := 1; attempt <= 3` creation loop of
`StartMonitoring`, run over the listed attempt numbers: success breaks
with the pod name, a resource-capacity error retries, any other error
aborts with the wrapped error, and exhausting the attempts yields `none`
(the fallback path). -/
def createAttempts (create : ℕ → CreateOutcome) : List ℕ → Except String (Option String)
  | [] => .ok none
  | a :: rest =>
    match create a with
    | .ok name => .ok (some name)
    | .err msg =>
      if resourceErr msg then createAttempts create rest
      else .error ("error creating performance pod: " ++ msg)

/-- The `Monitor` struct fields relevant to the verified behaviour
(`client`, the channels, the mutex and the metrics pointer are runtime
plumbing). -/
structure Monitor where
  nspace : String
  podName : String
  pvcName : String
  perfPod : String
  useFallback : Bool
deriving DecidableEq, Repr

/-- `StartMonitoring` from `internal/perf/monitor.go`: up to three
creation attempts, degraded (`useFallback`) mode when they exhaust on
resource errors or when the readiness wait fails, immediate error
otherwise. -/
def StartMonitoring (create : ℕ → CreateOutcome) (ready : String → Except String Unit)
    (nspace podName pvcName : String) : Except String Monitor :=
  match createAttempts create [1, 2, 3] with
  | .error e => .error e
  | .ok none => .ok ⟨nspace, podName, pvcName, "", true⟩
  | .ok (some name) =>
    match ready name with
    | .error _ => .ok ⟨nspace, podName, pvcName, name, true⟩
    | .ok _ => .ok ⟨nspace, podName, pvcName, name, false⟩

/-- Kubernetes deletion propagation policy. -/
inductive Propagation where
  | Foreground
  | Background
  | Orphan
deriving DecidableEq, Repr

/-- One pod-deletion request as issued by `Monitor.Stop`. -/
structure DeleteCall where
  nspace : String
  pod : String
  gracePeriodSeconds : ℤ
  propagation : Propagation
deriving DecidableEq, Repr

/-- Observable outcome of `Monitor.Stop`: whether the collection context
was cancelled, the deletion requests issued, and the returned error. -/
structure StopResult where
  cancelled : Bool
  deletions : List DeleteCall
  result : Option String
deriving DecidableEq, Repr

/-- `Stop` from `internal/perf/monitor.go`, with `deleteErr` the outcome
of the cluster's pod-deletion call: always cancel; in fallback mode
return immediately with no deletion; otherwise delete with grace period
0 and foreground propagation, wrapping a deletion failure. -/
def Monitor.Stop (m : Monitor) (deleteErr : Option String) : StopResult :=
  if m.useFallback then ⟨true, [], none⟩
  else
    match deleteErr with
    | some e =>
      ⟨true, [⟨m.nspace, m.perfPod, 0, .Foreground⟩],
       some ("error deleting performance pod: " ++ e)⟩
    | none => ⟨true, [⟨m.nspace, m.perfPod, 0, .Foreground⟩], none⟩

/-! ## The two polling waits (C4)

`waitForPodReady` (internal/perf/monitor.go) is a `for {}` loop: each
iteration gets the pod, returns the get error if any, returns success
when the phase is `Running`, and otherwise sleeps and loops — with no
iteration bound.  It is embedded fuel-indexed: `waitForPodReadyUpTo obs i
fuel` runs the iterations `i, i+1, …` for at most `fuel` steps and
returns `none` when the loop is still running after them.

The pre-existing-pod deletion wait inside `CreatePerformancePod`
(pkg/k8s/client.go) is `for i := 0; i < 30; i++`: poll, break when the
pod is gone, else sleep — and always falls through after 30 polls. -/

/-- One observation of the polled pod: a get error or its phase. -/
inductive PollObs where
  | err (e : String)
  | phase (p : String)
deriving DecidableEq, Repr

/-- One iteration of the `waitForPodReady` loop body: `some` when the
loop exits with that result, `none` when it sleeps and continues. -/
def waitStep (obs : ℕ → PollObs) (i : ℕ) : Option (Except String Unit) :=
  match obs i with
  | .err e => some (.error e)
  | .phase p => if p = "Running" then some (.ok ()) else none

/-- The unbounded `waitForPodReady` loop, run for at most `fuel`
iterations starting at iteration `i`. -/
def waitForPodReadyUpTo (obs : ℕ → PollObs) : ℕ → ℕ → Option (Except String Unit)
  | _, 0 => none
  | i, fuel + 1 =>
    match waitStep obs i with
    | some r => some r
    | none => waitForPodReadyUpTo obs (i + 1) fuel

/-- Number of polls performed by the deletion wait of
`CreatePerformancePod` starting at iteration `i` with `fuel` iterations
remaining; `gone i` tells whether the poll at iteration `i` finds the
pod already deleted (the get call errors). -/
def deletionWaitFrom (gone : ℕ → Bool) : ℕ → ℕ → ℕ
  | _, 0 => 0
  | i, fuel + 1 => if gone i then 1 else 1 + deletionWaitFrom gone (i + 1) fuel

/-- Number of polls performed by the deletion wait
(`for i := 0; i < 30; i++`). -/
def deletionWaitPolls (gone : ℕ → Bool) : ℕ :=
  deletionWaitFrom gone 0 30

/-! ## `parseHumanSize` (internal/perf/monitor.go) -/

/-- The suffix table of `parseHumanSize`: uppercase K/M/G/T/P/E at base
1024. -/
def suffixFactor (c : Char) : Option ℤ :=
  if c = 'K' then some 1024
  else if c = 'M' then some (1024 ^ 2)
  else if c = 'G' then some (1024 ^ 3)
  else if c = 'T' then some (1024 ^ 4)
  else if c = 'P' then some (1024 ^ 5)
  else if c = 'E' then some (1024 ^ 6)
  else none

/-- Product of a rational and an integer, constructed with `mkRat` so it
evaluates (`ratMulInt_eq` below identifies it with `q * z`). -/
def ratMulInt (q : ℚ) (z : ℤ) : ℚ :=
  mkRat (q.num * z) q.den

/-- Go's `strings.TrimSpace` on a character list. -/
def trimSpace (cs : List Char) : List Char :=
  ((cs.dropWhile Char.isWhitespace).reverse.dropWhile Char.isWhitespace).reverse

/-- Core of `parseHumanSize` after trimming: empty input yields 0; a
recognised final suffix character scales the remaining numeric part;
an unparseable numeric part yields 0 (not an error); the scaled value is
truncated toward zero as by Go's `int64(value * float64(multiplier))`
(exact on all inputs evaluated in this file). -/
def parseHumanSizeCore (cs : List Char) : ℤ :=
  if cs = [] then 0
  else
    let numericAndMult : List Char × ℤ :=
      match cs.getLast? with
      | none => (cs, 1)
      | some c =>
        match suffixFactor c with
        | none => (cs, 1)
        | some f => (cs.dropLast, f)
    match goParseFloat numericAndMult.1 with
    | none => 0
    | some v => truncQ (ratMulInt v numericAndMult.2)

/-- `parseHumanSize` from `internal/perf/monitor.go`. -/
def parseHumanSize (s : String) : ℤ :=
  parseHumanSizeCore (trimSpace s.data)

example : parseHumanSize "1K" = 1024 := by decide
example : parseHumanSize "1.5G" = 1610612736 := by decide
example : parseHumanSize " 500M " = 524288000 := by decide
example : parseHumanSize "invalid" = 0 := by decide

/-! ## Concrete data used by the witnesses and the counterexamples -/

/-- A volume of capacity 2 with 1 byte used (50 %), claim `ns/a`. -/
def volA : Volume := ⟨some ("ns", "a"), 2, 1, 1⟩

/-- A volume of capacity 2 with 1 byte used (50 %), claim `ns/b`. -/
def volB : Volume := ⟨some ("ns", "b"), 2, 1, 1⟩

/-- A volume of capacity 4 with 4 bytes used (100 %), claim `ns/c`. -/
def volC : Volume := ⟨some ("ns", "c"), 4, 4, 0⟩

/-- The usage record emitted for `volA`. -/
def usageA : Usage := ⟨"ns", "a", 2, 1, 1, percentageUsed 1 2⟩

/-- The usage record emitted for `volB`. -/
def usageB : Usage := ⟨"ns", "b", 2, 1, 1, percentageUsed 1 2⟩

/-- The usage record emitted for `volC`. -/
def usageC : Usage := ⟨"ns", "c", 4, 4, 0, percentageUsed 4 4⟩

/-- Summary set with two volumes of equal percentage (ties). -/
def tieSummaries : List Summary := [⟨[⟨[volA, volB]⟩]⟩]

/-- A `sort.Slice` output for `tieSummaries` that reverses the tied
records. -/
def tieSwappedOut : List Usage := [usageB, usageA]

/-- Summary set with one 100 % volume after one 50 % volume. -/
def mixedSummaries : List Summary := [⟨[⟨[volA, volC]⟩]⟩]

/-- The sorted output for `mixedSummaries`. -/
def mixedSorted : List Usage := [usageC, usageA]

/-- A creation oracle that always fails with a resource-capacity error. -/
def createAllResource : ℕ → CreateOutcome :=
  fun _ => .err "pod rejected: not enough resource available"

/-- A creation oracle that succeeds immediately. -/
def createOk : ℕ → CreateOutcome := fun _ => .ok "pvc-perf-monitor-a"

/-- A readiness oracle that always succeeds. -/
def readyOk : String → Except String Unit := fun _ => .ok ()

/-- A readiness oracle that always fails. -/
def readyFail : String → Except String Unit := fun _ => .error "get pod: not found"

/-- A pod directly declaring claim `a`. -/
def podDirect : PodInfo := ⟨"consumer-0", "Running", ["a"]⟩

/-- A pod with no claims, not running. -/
def podOther : PodInfo := ⟨"web-0", "Pending", []⟩

/-! ## Bridging lemmas -/

/-- `percentageUsed` is the literal source expression
`used / cap * 100`. -/
theorem percentageUsed_eq (used cap : ℤ) :
    percentageUsed used cap = (used : ℚ) / (cap : ℚ) * 100 := by
  rw [percentageUsed, Rat.divInt_eq_div]
  push_cast
  rw [mul_div_right_comm]

/-- `ratMulInt` is multiplication by the integer. -/
theorem ratMulInt_eq (q : ℚ) (z : ℤ) : ratMulInt q z = q * (z : ℚ) := by
  rw [ratMulInt, Rat.mkRat_eq_div]
  push_cast
  rw [mul_div_right_comm, Rat.num_div_den]

/-! ## C1 — ordering of the aggregator output -/

/-- C1 (amended): for every summary set, every possible output of
`GetUsages` (any result of the unstable `sort.Slice` call on the emitted
records) is sorted non-increasingly by percentage-used at all adjacent
indices.  The stability half of the original claim is refuted by
`c1_stability_counterexample`. -/
theorem c1_sorted_nonincreasing (summaries : List Summary) (out : List Usage)
    (h : GetUsagesRel summaries out) (i : ℕ) (hi : i + 1 < out.length) :
    (out.get ⟨i + 1, hi⟩).PercentageUsed ≤
      (out.get ⟨i, Nat.lt_of_succ_lt hi⟩).PercentageUsed := by
  have hp := h.2
  rw [List.pairwise_iff_get] at hp
  exact not_lt.mp (hp ⟨i, Nat.lt_of_succ_lt hi⟩ ⟨i + 1, hi⟩ (by simp [Fin.mk_lt_mk]))

/-- Witness for C1 at a concrete input: the sorted output for
`mixedSummaries` satisfies the adjacent-index bound at index 0. -/
theorem c1_sorted_nonincreasing_witness :
    (mixedSorted.get ⟨1, by decide⟩).PercentageUsed ≤
      (mixedSorted.get ⟨0, by decide⟩).PercentageUsed :=
  c1_sorted_nonincreasing mixedSummaries mixedSorted (by decide) 0 (by decide)

/-- C1 counterexample (stability): for the two-volume summary set
`tieSummaries`, whose records tie at 50 %, the reversed record order
`tieSwappedOut` is a legitimate `sort.Slice` outcome (permutation,
sorted), yet the tied records do not keep their encounter order.  Hence
the claim "ties preserve the order in which the records were emitted" is
false for the code, which uses the unstable `sort.Slice`, not
`sort.SliceStable`. -/
theorem c1_stability_counterexample :
    GetUsagesRel tieSummaries tieSwappedOut
    ∧ ¬ tiesKeepEncounterOrder (emitUsages tieSummaries) tieSwappedOut := by
  constructor
  · decide
  · intro h
    exact absurd (h (percentageUsed 1 2)) (by decide)

/-! ## C7 — no zero-capacity record in the aggregator output -/

/-- C7: no usage record with zero capacity ever appears in a `GetUsages`
output: volumes with a claim reference but zero capacity are skipped by
the emission loop (without an error), so the percentage division never
sees a zero divisor. -/
theorem c7_no_zero_capacity (summaries : List Summary) (out : List Usage)
    (h : GetUsagesRel summaries out) : ∀ u ∈ out, u.CapacityBytes ≠ 0 := by
  intro u hu
  have hmem : u ∈ emitUsages summaries := h.1.mem_iff.mpr hu
  simp only [emitUsages, List.mem_flatMap, List.mem_filterMap] at hmem
  obtain ⟨s, -, p, -, v, -, hv⟩ := hmem
  unfold vol2usage at hv
  split at hv
  · simp at hv
  · split at hv
    · simp at hv
    · rename_i hcap
      obtain rfl := Option.some.inj hv
      exact hcap

/-- Witness for C7 at a concrete input. -/
theorem c7_no_zero_capacity_witness : usageA.CapacityBytes ≠ 0 :=
  c7_no_zero_capacity tieSummaries tieSwappedOut (by decide) usageA (by decide)

/-! ## C2 — the filter pipeline -/

/-- C2: `FilterUsages` first parses the filter string and fails exactly
when parsing fails; on success it returns, in input order, exactly the
records passing the parsed comparison; the empty filter string is the
identity; and for the five documented operators the include decision is
the corresponding comparison of `PercentageUsed` against the
threshold. -/
theorem c2_filter_pipeline (usages : List Usage) (f : String) :
    FilterUsages usages "" = .ok usages
    ∧ (∀ e, ParseFilter f = .error e → FilterUsages usages f = .error e)
    ∧ (∀ op v, ParseFilter f = .ok (op, v) →
        FilterUsages usages f = .ok (usages.filter (includeUsage op v)))
    ∧ (∀ v u, includeUsage ">" v u = decide (u.PercentageUsed > v)
        ∧ includeUsage ">=" v u = decide (u.PercentageUsed ≥ v)
        ∧ includeUsage "<" v u = decide (u.PercentageUsed < v)
        ∧ includeUsage "<=" v u = decide (u.PercentageUsed ≤ v)
        ∧ includeUsage "=" v u = decide (u.PercentageUsed = v)) := by
  refine ⟨?_, fun e he => ?_, fun op v hov => ?_, fun v u => ⟨rfl, rfl, rfl, rfl, rfl⟩⟩
  · have h0 : ParseFilter "" = .ok ("", 0) := by decide
    simp only [FilterUsages, h0]
    have hall : includeUsage "" 0 = fun _ => true := by
      funext u; simp [includeUsage]
    rw [hall, List.filter_true]
  · rw [FilterUsages, he]
  · rw [FilterUsages, hov]

/-- Witness for C2: a parsed `>=60` filter keeps exactly the records at
or above 60 %. -/
theorem c2_filter_pipeline_witness :
    FilterUsages [usageA, usageC] ">=60" =
      .ok ([usageA, usageC].filter (includeUsage ">=" 60))
    ∧ [usageA, usageC].filter (includeUsage ">=" 60) = [usageC] :=
  ⟨(c2_filter_pipeline [usageA, usageC] ">=60").2.2.1 ">=" 60 (by decide), by decide⟩

/-! ## C10 — the undocumented `==` operator -/

/-- C10: for every decimal literal `d`, parsing the filter `"==" ++ d`
succeeds and yields the operator string `"=="`, which the comparison
switch of `FilterUsages` does not recognise, so the filtered result is
empty for every input list. -/
theorem c10_double_equal_operator (d : String) (x : ℚ) (usages : List Usage)
    (hp : goParseFloat d.data = some x) :
    ParseFilter ("==" ++ d) = .ok ("==", x)
    ∧ FilterUsages usages ("==" ++ d) = .ok [] := by
  have hd : ("==" ++ d).data = '=' :: '=' :: d.data := by
    rw [String.data_append]; rfl
  have h1 : ParseFilter ("==" ++ d) = .ok ("==", x) := by
    rw [ParseFilter, hd]
    simp [parseFilterChars, hp]
  refine ⟨h1, ?_⟩
  simp only [FilterUsages, h1]
  have hnil : usages.filter (includeUsage "==" x) = [] :=
    List.filter_eq_nil_iff.mpr fun a _ => by simp [includeUsage]
  rw [hnil]

/-- Witness for C10 with the literal `5`. -/
theorem c10_double_equal_operator_witness :
    ParseFilter ("==" ++ "5") = .ok ("==", 5)
    ∧ FilterUsages [usageA] ("==" ++ "5") = .ok [] :=
  c10_double_equal_operator "5" 5 [usageA] (by decide)

/-! ## C3 — retry, abort and fallback in `StartMonitoring` -/

/-- C3: `StartMonitoring` attempts pod creation at most 3 times (its
result depends only on the first three attempt outcomes); a non-resource
creation error at any attempt aborts immediately with that error; three
resource-capacity failures degrade to a fallback monitor instead of
failing; and a successful creation followed by a failed readiness wait
also degrades while still returning a monitor.  (The fixed 5-second
backoff sleep between retries and the launched collection goroutine are
real-time effects outside the embedding.) -/
theorem c3_startMonitoring_retry (create : ℕ → CreateOutcome)
    (ready : String → Except String Unit) (ns pn vn : String) :
    (∀ create2 : ℕ → CreateOutcome, create2 1 = create 1 → create2 2 = create 2 →
      create2 3 = create 3 →
      StartMonitoring create2 ready ns pn vn = StartMonitoring create ready ns pn vn)
    ∧ (∀ msg, create 1 = .err msg → resourceErr msg = false →
        StartMonitoring create ready ns pn vn =
          .error ("error creating performance pod: " ++ msg))
    ∧ (∀ m1 msg, create 1 = .err m1 → resourceErr m1 = true →
        create 2 = .err msg → resourceErr msg = false →
        StartMonitoring create ready ns pn vn =
          .error ("error creating performance pod: " ++ msg))
    ∧ (∀ m1 m2 msg, create 1 = .err m1 → resourceErr m1 = true →
        create 2 = .err m2 → resourceErr m2 = true →
        create 3 = .err msg → resourceErr msg = false →
        StartMonitoring create ready ns pn vn =
          .error ("error creating performance pod: " ++ msg))
    ∧ (∀ m1 m2 m3, create 1 = .err m1 → resourceErr m1 = true →
        create 2 = .err m2 → resourceErr m2 = true →
        create 3 = .err m3 → resourceErr m3 = true →
        StartMonitoring create ready ns pn vn = .ok ⟨ns, pn, vn, "", true⟩)
    ∧ (∀ name e, createAttempts create [1, 2, 3] = .ok (some name) →
        ready name = .error e →
        StartMonitoring create ready ns pn vn = .ok ⟨ns, pn, vn, name, true⟩) := by
  refine ⟨?_, ?_, ?_, ?_, ?_, ?_⟩
  · intro create2 h1 h2 h3
    simp only [StartMonitoring, createAttempts, h1, h2, h3]
  · intro msg h1 hr
    simp only [StartMonitoring, createAttempts, h1, hr, if_neg, Bool.false_eq_true,
      not_false_eq_true]
  · intro m1 msg h1 hr1 h2 hr2
    simp only [StartMonitoring, createAttempts, h1, hr1, h2, hr2, if_true, if_neg,
      Bool.false_eq_true, not_false_eq_true]
  · intro m1 m2 msg h1 hr1 h2 hr2 h3 hr3
    simp only [StartMonitoring, createAttempts, h1, hr1, h2, hr2, h3, hr3, if_true,
      if_neg, Bool.false_eq_true, not_false_eq_true]
  · intro m1 m2 m3 h1 hr1 h2 hr2 h3 hr3
    simp only [StartMonitoring, createAttempts, h1, hr1, h2, hr2, h3, hr3, if_true]
  · intro name e hc hr
    simp only [StartMonitoring, hc, hr]

/-- Witness for C3: three resource-capacity failures still produce a
monitor, in fallback mode. -/
theorem c3_startMonitoring_retry_witness :
    StartMonitoring createAllResource readyOk "ns" "pod-0" "pvc-a" =
      .ok ⟨"ns", "pod-0", "pvc-a", "", true⟩ :=
  (c3_startMonitoring_retry createAllResource readyOk "ns" "pod-0" "pvc-a").2.2.2.2.1
    "pod rejected: not enough resource available"
    "pod rejected: not enough resource available"
    "pod rejected: not enough resource available"
    rfl (by decide) rfl (by decide) rfl (by decide)

/-! ## C5 — `Monitor.Stop` -/

/-- C5: `Stop` always cancels the collection activity; in fallback mode
it issues no deletion and returns success; otherwise it issues exactly
one deletion with grace period 0 and foreground propagation, and returns
the wrapped deletion error exactly when the deletion fails. -/
theorem c5_stop_behaviour (m : Monitor) (deleteErr : Option String) :
    (m.Stop deleteErr).cancelled = true
    ∧ (m.useFallback = true → m.Stop deleteErr = ⟨true, [], none⟩)
    ∧ (m.useFallback = false →
        (m.Stop deleteErr).deletions = [⟨m.nspace, m.perfPod, 0, .Foreground⟩]
        ∧ (∀ e, deleteErr = some e →
            (m.Stop deleteErr).result = some ("error deleting performance pod: " ++ e))
        ∧ (deleteErr = none → (m.Stop deleteErr).result = none)) := by
  refine ⟨?_, fun hf => ?_, fun hf => ⟨?_, fun e he => ?_, fun he => ?_⟩⟩
  · unfold Monitor.Stop
    split
    · rfl
    · cases deleteErr <;> rfl
  · simp [Monitor.Stop, hf]
  · cases deleteErr <;> simp [Monitor.Stop, hf]
  · simp [Monitor.Stop, hf, he]
  · simp [Monitor.Stop, hf, he]

/-- Witness for C5: stopping a non-fallback monitor issues the single
foreground, zero-grace deletion and returns success when the deletion
succeeds. -/
theorem c5_stop_behaviour_witness :
    ((Monitor.mk "ns" "pod-0" "pvc-a" "pvc-perf-monitor-a" false).Stop none).deletions =
      [⟨"ns", "pvc-perf-monitor-a", 0, .Foreground⟩] :=
  ((c5_stop_behaviour (Monitor.mk "ns" "pod-0" "pvc-a" "pvc-perf-monitor-a" false)
    none).2.2 rfl).1

/-! ## C9 — a degraded monitor never deletes its created pod -/

/-- C9: when pod creation succeeded but the readiness wait failed, the
returned monitor is degraded yet still records the created pod's name,
and `Stop` on it issues no deletion and returns success — so the created
diagnostic pod is never deleted by its owning monitor. -/
theorem c9_degraded_keeps_pod (create : ℕ → CreateOutcome)
    (ready : String → Except String Unit) (ns pn vn name e : String)
    (deleteErr : Option String)
    (hc : createAttempts create [1, 2, 3] = .ok (some name))
    (hr : ready name = .error e) :
    ∃ m : Monitor, StartMonitoring create ready ns pn vn = .ok m
      ∧ m.useFallback = true ∧ m.perfPod = name
      ∧ m.Stop deleteErr = ⟨true, [], none⟩ := by
  refine ⟨⟨ns, pn, vn, name, true⟩, ?_, rfl, rfl, rfl⟩
  simp only [StartMonitoring, hc, hr]

/-- Witness for C9: a concrete creation success with failing readiness
wait yields a fallback monitor that keeps the pod on `Stop`. -/
theorem c9_degraded_keeps_pod_witness :
    ∃ m : Monitor, StartMonitoring createOk readyFail "ns" "pod-0" "pvc-a" = .ok m
      ∧ m.useFallback = true ∧ m.perfPod = "pvc-perf-monitor-a"
      ∧ m.Stop (some "boom") = ⟨true, [], none⟩ :=
  c9_degraded_keeps_pod createOk readyFail "ns" "pod-0" "pvc-a"
    "pvc-perf-monitor-a" "get pod: not found" (some "boom") rfl rfl

/-! ## C4 — boundedness of the two polling waits -/

/-- On a pod that stays `Pending` (every get succeeding), the
`waitForPodReady` loop is still running after any number of
iterations. -/
theorem waitForPodReadyUpTo_pending (fuel i : ℕ) :
    waitForPodReadyUpTo (fun _ => PollObs.phase "Pending") i fuel = none := by
  induction fuel generalizing i with
  | zero => rfl
  | succ n ih => exact ih (i + 1)

/-- The deletion wait performs at most `fuel` polls. -/
theorem deletionWaitFrom_le (gone : ℕ → Bool) (fuel i : ℕ) :
    deletionWaitFrom gone i fuel ≤ fuel := by
  induction fuel generalizing i with
  | zero => exact Nat.le_refl 0
  | succ n ih =>
    by_cases h : gone i
    · simp [deletionWaitFrom, h]
    · simp only [deletionWaitFrom, h, if_false, Bool.false_eq_true]
      have := ih (i + 1)
      omega

/-- C4 (amended): the pre-existing-pod deletion wait inside
`CreatePerformancePod` performs at most 30 polls for every behaviour of
the polled condition, but the readiness wait `waitForPodReady` has **no**
iteration bound: on a pod that stays `Pending` (with the get call
succeeding) it never returns, however many iterations run. -/
theorem c4_deletion_bounded_readiness_unbounded :
    (∀ gone : ℕ → Bool, deletionWaitPolls gone ≤ 30)
    ∧ ∀ n : ℕ, waitForPodReadyUpTo (fun _ => PollObs.phase "Pending") 0 n = none :=
  ⟨fun gone => deletionWaitFrom_le gone 30 0,
   fun n => waitForPodReadyUpTo_pending n 0⟩

/-- C4 counterexample: the claim that *both* waits terminate after a
bounded number of iterations is false — `waitForPodReady` (a bare
`for {}` loop) does not decide within any number of iterations when the
polled pod never leaves `Pending`. -/
theorem c4_readiness_wait_counterexample :
    ¬ ∃ n : ℕ,
      (waitForPodReadyUpTo (fun _ => PollObs.phase "Pending") 0 n).isSome := by
  rintro ⟨n, hn⟩
  rw [waitForPodReadyUpTo_pending n 0] at hn
  simp at hn

/-! ## C6 — `FindPodUsingPVC` -/

/-- C6: `FindPodUsingPVC` fails exactly on an empty pod list (and a
listing failure is surfaced by the caller-facing wrapper); on any
non-empty pod list it returns some pod name (the final tier falls back
to the first pod unconditionally); and the first pod whose volume list
directly declares the claim always wins over every later heuristic
tier. -/
theorem c6_findPodUsingPVC_behaviour (nspace pvcName : String) (pods : List PodInfo) :
    (pods = [] → FindPodUsingPVC nspace pods pvcName =
        .error ("no pods found in namespace '" ++ nspace ++ "'"))
    ∧ (pods ≠ [] → ∃ n, FindPodUsingPVC nspace pods pvcName = .ok n)
    ∧ (∀ p, pods.find? (fun q => q.claims.contains pvcName) = some p →
        FindPodUsingPVC nspace pods pvcName = .ok p.name)
    ∧ (∀ e, findPodAfterList nspace (.error e) pvcName =
        .error ("error listing pods: " ++ e)) := by
  refine ⟨fun h => ?_, fun h => ?_, fun p hp => ?_, fun e => rfl⟩
  · subst h; rfl
  · obtain ⟨p0, rest, rfl⟩ := List.exists_cons_of_ne_nil h
    cases h1 : directTier (p0 :: rest) pvcName with
    | some n => exact ⟨n, by simp only [FindPodUsingPVC, h1]⟩
    | none =>
      cases h2 : patternTier (p0 :: rest) pvcName with
      | some n => exact ⟨n, by simp only [FindPodUsingPVC, h1, h2]⟩
      | none =>
        cases h3 : tokenTier (p0 :: rest) pvcName with
        | some n => exact ⟨n, by simp only [FindPodUsingPVC, h1, h2, h3]⟩
        | none =>
          cases h4 : kafkaTier (p0 :: rest) with
          | some n => exact ⟨n, by simp only [FindPodUsingPVC, h1, h2, h3, h4]⟩
          | none =>
            cases h5 : runningTier (p0 :: rest) with
            | some n => exact ⟨n, by simp only [FindPodUsingPVC, h1, h2, h3, h4, h5]⟩
            | none => exact ⟨p0.name, by simp only [FindPodUsingPVC, h1, h2, h3, h4, h5]⟩
  · cases pods with
    | nil => simp at hp
    | cons p0 rest =>
      have hd : directTier (p0 :: rest) pvcName = some p.name := by
        rw [directTier, hp]; rfl
      simp only [FindPodUsingPVC, hd]

/-- Witness for C6: the pod directly declaring the claim wins even when
listed after another pod, and the empty namespace fails. -/
theorem c6_findPodUsingPVC_behaviour_witness :
    FindPodUsingPVC "ns" [podOther, podDirect] "a" = .ok podDirect.name
    ∧ FindPodUsingPVC "ns" [] "a" = .error ("no pods found in namespace 'ns'") :=
  ⟨(c6_findPodUsingPVC_behaviour "ns" "a" [podOther, podDirect]).2.2.1 podDirect
      (by decide),
   (c6_findPodUsingPVC_behaviour "ns" "a" []).1 rfl⟩

/-! ## C8 — `parseHumanSize` -/

/-- C8: `parseHumanSize` converts a size token with an uppercase
K/M/G/T/P/E suffix at base 1024, truncating the scaled value toward
zero, and returns 0 (never an error) for empty or unparseable input;
in general any parseable numeric part followed by a recognised suffix
evaluates to the truncated product. -/
theorem c8_parseHumanSize_values :
    parseHumanSize "1K" = 1024 ∧ parseHumanSize "1M" = 1048576
    ∧ parseHumanSize "1.5G" = 1610612736 ∧ parseHumanSize "" = 0
    ∧ parseHumanSize "invalid" = 0
    ∧ parseHumanSize "1T" = 1099511627776
    ∧ parseHumanSize "1P" = 1125899906842624
    ∧ parseHumanSize "1E" = 1152921504606846976
    ∧ parseHumanSize "1k" = 0
    ∧ (∀ (cs : List Char) (x : ℚ) (c : Char) (f : ℤ),
        goParseFloat cs = some x → suffixFactor c = some f →
        parseHumanSizeCore (cs ++ [c]) = truncQ (x * (f : ℚ))) := by
  refine ⟨by decide, by decide, by decide, by decide, by decide, by decide, by decide,
    by decide, by decide, ?_⟩
  intro cs x c f hx hf
  have hne : ¬(cs ++ [c] = []) := by simp
  simp only [parseHumanSizeCore, if_neg hne, List.getLast?_concat, hf,
    List.dropLast_concat, hx]
  rw [ratMulInt_eq]

/-- Witness for C8's general conjunct: `"2M"` split as numeric part and
suffix evaluates to the truncated product `2 · 2²⁰`. -/
theorem c8_parseHumanSize_values_witness :
    parseHumanSizeCore ("2".data ++ ['M']) = truncQ (2 * ((1048576 : ℤ) : ℚ)) :=
  c8_parseHumanSize_values.2.2.2.2.2.2.2.2.2 "2".data 2 'M' 1048576
    (by decide) (by decide)
